import Mathlib

/-!
Shallow embedding of the ChatApp repository (Express/Mongoose chat backend and
the React SingleChat client component), together with proofs settling the
behavioural claims about it.

Server side (src/backend/controllers/chatControllers.js and the message
controller): the document database is modelled as explicit state (`DB`) holding
the chat and message collections, fresh-id counters, and a logical clock that
stands in for wall-clock timestamps.  Object ids are natural numbers, responses
are an explicit `ApiResult` value.

Client side (src/frontend/src/components/SingleChat.js): the typing debounce is
modelled as a state machine over logical millisecond time, the socket message
consumer and the Enter-to-send handler as pure transition functions.
-/

abbrev UserId := Nat
abbrev ChatId := Nat
abbrev MessageId := Nat

/-- A Message document: sender reference, text content, parent chat reference,
and its creation timestamp (Mongoose `timestamps`). -/
structure Message where
  id : MessageId
  sender : UserId
  content : String
  chat : ChatId
  createdAt : Nat
deriving Repr, DecidableEq

/-- A Chat document: display name, group flag, participant references, optional
admin reference, optional latest-message reference, and its last-update
timestamp (Mongoose `timestamps`). -/
structure Chat where
  id : ChatId
  chatName : String
  isGroupChat : Bool
  users : List UserId
  groupAdmin : Option UserId
  latestMessage : Option MessageId
  updatedAt : Nat
deriving Repr, DecidableEq

/-- The database state: the two collections the chat controllers touch, counters
producing fresh object ids, and a logical clock (`now`) that advances on every
write, standing in for wall-clock timestamps. -/
structure DB where
  chats : List Chat
  messages : List Message
  nextChatId : Nat
  nextMessageId : Nat
  now : Nat
deriving Repr, DecidableEq

/-- The empty database. -/
def DB.empty : DB := { chats := [], messages := [], nextChatId := 0, nextMessageId := 0, now := 0 }

/-- An HTTP response as produced by the controllers: a status code together with
the JSON body that was sent (a chat, a chat list, a message, or an error
message).  `res.sendStatus(400)` is modelled as `errorBody 400 "Bad Request"`,
since Express sends the default status text as the response body. -/
inductive ApiResult where
  | chatBody (status : Nat) (c : Chat)
  | chatListBody (status : Nat) (cs : List Chat)
  | messageBody (status : Nat) (m : Message)
  | errorBody (status : Nat) (message : String)
deriving Repr, DecidableEq

/-- The HTTP status of a response. -/
def ApiResult.status : ApiResult → Nat
  | .chatBody s _ => s
  | .chatListBody s _ => s
  | .messageBody s _ => s
  | .errorBody s _ => s

/-- The id of the chat in the response body, when the body is a single chat. -/
def ApiResult.chatId? : ApiResult → Option ChatId
  | .chatBody _ c => some c.id
  | _ => none

/-- `Chat.findById`: first chat in the collection with the given id. -/
def DB.findChat? (db : DB) (cid : ChatId) : Option Chat :=
  db.chats.find? (fun c => c.id == cid)

/-- `Chat.findByIdAndUpdate(cid, upd, ⟨new: true⟩)`.  Returns `none` (and leaves
the database unchanged) when no chat has the given id; otherwise applies the
update to that chat and returns the updated document.  The chat schema file
itself is not under src/, but the controllers sort on `updatedAt`, so the
schema enables Mongoose timestamps: every successful update also stamps the
document with the current time. -/
def DB.findChatByIdAndUpdate (db : DB) (cid : ChatId) (f : Chat → Chat) : DB × Option Chat :=
  match db.findChat? cid with
  | none => (db, none)
  | some c =>
      let g : Chat → Chat := fun x => { f x with updatedAt := db.now }
      ({ db with
          chats := db.chats.map (fun x => if x.id == cid then g x else x),
          now := db.now + 1 },
        some (g c))

/-- The `findOne` query of `accessChat`: a non-group chat whose users contain
both the requester and the target user. -/
def directChatQuery (me userId : UserId) (c : Chat) : Bool :=
  !c.isGroupChat && c.users.contains me && c.users.contains userId

/-- accessChat (POST /api/chat): find-or-create a one-to-one chat between the
authenticated user `me` and `userId`.  Missing `userId` gives
`res.sendStatus(400)`.  If a matching non-group chat exists it is returned
(status 200 via `res.send`); otherwise a chat named "sender" with users
`[me, userId]` is created and returned with status 200. -/
def accessChat (db : DB) (me : UserId) (userId? : Option UserId) : DB × ApiResult :=
  match userId? with
  | none => (db, .errorBody 400 "Bad Request")
  | some userId =>
      match db.chats.find? (directChatQuery me userId) with
      | some isChat => (db, .chatBody 200 isChat)
      | none =>
          let createdChat : Chat :=
            { id := db.nextChatId, chatName := "sender", isGroupChat := false,
              users := [me, userId], groupAdmin := none, latestMessage := none,
              updatedAt := db.now }
          ({ db with
              chats := db.chats ++ [createdChat],
              nextChatId := db.nextChatId + 1,
              now := db.now + 1 },
            .chatBody 200 createdChat)

/-- The descending-`updatedAt` order used by fetchChats. -/
def moreRecentlyUpdated (a b : Chat) : Prop := b.updatedAt ≤ a.updatedAt

instance : DecidableRel moreRecentlyUpdated := fun a b => Nat.decLe b.updatedAt a.updatedAt

/-- fetchChats (GET /api/chat): all chats whose users contain the requester,
sorted by `updatedAt` descending (`.sort(⟨updatedAt: -1⟩)`). -/
def fetchChats (db : DB) (me : UserId) : ApiResult :=
  .chatListBody 200
    ((db.chats.filter (fun c => c.users.contains me)).insertionSort moreRecentlyUpdated)

/-- createGroupChat (POST /api/chat/group): requires a users field and a name
(JS falsiness: an absent or empty name fails the `!req.body.name` check), then
requires at least 2 parsed users; pushes the requester onto the users list and
creates the group with the requester as admin.  `users?` is the already-parsed
JSON array (`none` when the field is absent). -/
def createGroupChat (db : DB) (me : UserId) (users? : Option (List UserId)) (name : String) :
    DB × ApiResult :=
  if users?.isNone ∨ name = "" then
    (db, .errorBody 400 "Please fill all the fields")
  else
    let users := users?.getD []
    if users.length < 2 then
      (db, .errorBody 400 "At least 2 users are required to form a group chat")
    else
      let groupUsers := users ++ [me]
      let groupChat : Chat :=
        { id := db.nextChatId, chatName := name, isGroupChat := true,
          users := groupUsers, groupAdmin := some me, latestMessage := none,
          updatedAt := db.now }
      ({ db with
          chats := db.chats ++ [groupChat],
          nextChatId := db.nextChatId + 1,
          now := db.now + 1 },
        .chatBody 200 groupChat)

/-- renameGroup (PUT /api/chat/rename): set the chat's name; 404 when the chat
id does not resolve. -/
def renameGroup (db : DB) (chatId : ChatId) (chatName : String) : DB × ApiResult :=
  match db.findChatByIdAndUpdate chatId (fun c => { c with chatName := chatName }) with
  | (db1, some updatedChat) => (db1, .chatBody 200 updatedChat)
  | (db1, none) => (db1, .errorBody 404 "Chat not found")

/-- removeFromGroup (PUT /api/chat/groupremove): `$pull` removes every
occurrence of `userId` from the chat's users; 404 when the chat id does not
resolve.  No check on the remaining participant count and no admin check. -/
def removeFromGroup (db : DB) (chatId : ChatId) (userId : UserId) : DB × ApiResult :=
  match db.findChatByIdAndUpdate chatId
      (fun c => { c with users := c.users.filter (fun u => u != userId) }) with
  | (db1, some removed) => (db1, .chatBody 200 removed)
  | (db1, none) => (db1, .errorBody 404 "Chat not found")

/-- addToGroup (PUT /api/chat/groupadd): `$push` unconditionally appends
`userId` to the chat's users; 404 when the chat id does not resolve.  No
membership check. -/
def addToGroup (db : DB) (chatId : ChatId) (userId : UserId) : DB × ApiResult :=
  match db.findChatByIdAndUpdate chatId (fun c => { c with users := c.users ++ [userId] }) with
  | (db1, some added) => (db1, .chatBody 200 added)
  | (db1, none) => (db1, .errorBody 404 "Chat not found")

/-- sendMessage (POST /api/message): 400 when content or chatId is missing (JS
falsiness: empty content fails the `!content` check).  Otherwise creates the
message, then updates the chat's `latestMessage` via `findByIdAndUpdate` (the
result of that update is not checked), and responds 201 with the message. -/
def sendMessage (db : DB) (me : UserId) (content : String) (chatId? : Option ChatId) :
    DB × ApiResult :=
  if content = "" ∨ chatId?.isNone then
    (db, .errorBody 400 "Content and chatId are required.")
  else
    let chatId := chatId?.getD 0
    let message : Message :=
      { id := db.nextMessageId, sender := me, content := content, chat := chatId,
        createdAt := db.now }
    let db1 : DB :=
      { db with messages := db.messages ++ [message], nextMessageId := db.nextMessageId + 1 }
    let db2 := (db1.findChatByIdAndUpdate chatId (fun c => { c with latestMessage := some message.id })).1
    (db2, .messageBody 201 message)

/-!
Client side: the SingleChat component.
-/

/-- Local component state touched by the socket message consumer: the visible
message list of the open chat, the notification list, and the chat-list
re-fetch flag. -/
structure ClientState where
  messages : List Message
  notification : List Message
  fetchAgain : Bool
deriving Repr, DecidableEq

/-- The guard of the message consumer:
`!selectedChatCompare || selectedChatCompare._id !== newMessageRecieved.chat._id`
(no chat open, or the incoming message belongs to a different chat). -/
def chatMismatch (selectedChatCompare : Option Chat) (newMessageRecieved : Message) : Bool :=
  match selectedChatCompare with
  | none => true
  | some sc => sc.id != newMessageRecieved.chat

/-- The socket "message recieved" consumer.  If no chat is open or the message
is for another chat: when the message is not already in the notification list,
it is prepended (`[newMessageRecieved, ...notification]`) and the re-fetch flag
is toggled.  Otherwise the message is appended to the visible list.
JS `includes` compares object references; populated message documents are
modelled as values, so the check is equality of the message record. -/
def messageHandler (selectedChatCompare : Option Chat) (s : ClientState)
    (newMessageRecieved : Message) : ClientState :=
  if chatMismatch selectedChatCompare newMessageRecieved then
    if s.notification.contains newMessageRecieved then s
    else
      { s with
          notification := newMessageRecieved :: s.notification,
          fetchAgain := !s.fetchAgain }
  else
    { s with messages := s.messages ++ [newMessageRecieved] }

/-- The payload of the POST /api/message request the client issues. -/
structure PostPayload where
  content : String
  chatId : ChatId
deriving Repr, DecidableEq

/-- JS `String.prototype.trim`: strip leading and trailing whitespace (they
agree on the ASCII whitespace relevant here).  Defined structurally on the
character list so that it evaluates on concrete strings. -/
def jsTrim (s : String) : String :=
  String.mk (((s.data.dropWhile Char.isWhitespace).reverse.dropWhile Char.isWhitespace).reverse)

/-- The onKeyDown send handler.  Only when the pressed key is Enter and the
input is non-empty after trimming (`newMessage.trim()` truthy) does it issue
the POST: the payload carries the untrimmed input, the server's populated reply
`data` is appended to the message list, and the input is cleared.  Any other
event leaves everything unchanged. -/
def clientSendMessage (eventKey : String) (newMessage : String) (selectedChatId : ChatId)
    (messages : List Message) (data : Message) :
    Option PostPayload × List Message × String :=
  if eventKey = "Enter" ∧ jsTrim newMessage ≠ "" then
    (some { content := newMessage, chatId := selectedChatId }, messages ++ [data], "")
  else
    (none, messages, newMessage)

/-!
The typing debounce of SingleChat, over logical millisecond time.  The
component state is the `typing` flag plus the pending `setTimeout` deadline
(`typingTimeoutRef`); an absent deadline means no timer is pending.
-/

/-- Debounce state: the `typing` flag and the pending timer's fire time. -/
structure TypingState where
  typing : Bool
  timer : Option Nat
deriving Repr, DecidableEq

/-- The initial debounce state of a freshly mounted component. -/
def TypingState.initial : TypingState := { typing := false, timer := none }

/-- A socket signal emitted by the typing handler, tagged with the logical time
at which it is emitted. -/
inductive TypingEvent where
  | typingSignal (t : Nat)
  | stopTypingSignal (t : Nat)
deriving Repr, DecidableEq

/-- typingHandler, called at time `t` on a keystroke (an onChange event).  When
the socket is not connected it returns immediately.  Otherwise: if the typing
flag is down it is raised and "typing" is emitted; then the pending timeout is
cleared and a new one is set to fire 3000ms from now. -/
def typingHandler (socketConnected : Bool) (s : TypingState) (t : Nat) :
    TypingState × List TypingEvent :=
  if !socketConnected then (s, [])
  else
    let emitted := if !s.typing then [TypingEvent.typingSignal t] else []
    ({ typing := true, timer := some (t + 3000) }, emitted)

/-- The `setTimeout` callback firing: if a timer is pending and its deadline
has been reached by time `now`, it emits "stop typing" (at the deadline) and
lowers the typing flag; otherwise nothing happens. -/
def timerFire (s : TypingState) (now : Nat) : TypingState × List TypingEvent :=
  match s.timer with
  | some deadline =>
      if deadline ≤ now then
        ({ typing := false, timer := none }, [TypingEvent.stopTypingSignal deadline])
      else (s, [])
  | none => (s, [])

/-- The unmount cleanup effect: `clearTimeout(typingTimeoutRef.current)` cancels
any pending timer. -/
def unmountCleanup (s : TypingState) : TypingState := { s with timer := none }

/-- Process a time-ordered list of keystrokes: before each keystroke the
pending timer fires if its deadline has passed, then the typing handler runs. -/
def runKeystrokes (socketConnected : Bool) (s : TypingState) :
    List Nat → TypingState × List TypingEvent
  | [] => (s, [])
  | t :: ts =>
      let r1 := timerFire s t
      let r2 := typingHandler socketConnected r1.1 t
      let r3 := runKeystrokes socketConnected r2.1 ts
      (r3.1, r1.2 ++ r2.2 ++ r3.2)

/-- All signals emitted when a freshly mounted component processes the
keystrokes `ts` and then stays idle until time `observeAt`. -/
def runBurstThenIdle (socketConnected : Bool) (ts : List Nat) (observeAt : Nat) :
    List TypingEvent :=
  let r1 := runKeystrokes socketConnected TypingState.initial ts
  let r2 := timerFire r1.1 observeAt
  r1.2 ++ r2.2

/-- A burst: keystroke times are nondecreasing and each successive keystroke
arrives strictly within 3000ms of the previous one. -/
def isBurst : List Nat → Bool
  | [] => true
  | [_] => true
  | a :: b :: ts => (a ≤ b && b < a + 3000) && isBurst (b :: ts)

/-- The last element of `t :: ts`. -/
def lastTime (t : Nat) : List Nat → Nat
  | [] => t
  | u :: us => lastTime u us

/-!
Concrete runs of the operations, used below to exhibit reachable states.
-/

/-- The chat ids listed in a chat-list response. -/
def responseChatIds (r : ApiResult) : List ChatId :=
  match r with
  | .chatListBody _ cs => cs.map Chat.id
  | _ => []

/-- The creation time of the chat's latest message, when the chat and that
message exist. -/
def latestMessageTime (db : DB) (cid : ChatId) : Option Nat :=
  match db.findChat? cid with
  | none => none
  | some c =>
      match c.latestMessage with
      | none => none
      | some mid => (db.messages.find? (fun m => m.id == mid)).map Message.createdAt

/-- The users of the chat with the given id (empty when absent). -/
def chatUsersAt (db : DB) (cid : ChatId) : List UserId :=
  ((db.findChat? cid).map Chat.users).getD []

/-- Run: user 10 creates two group chats, sends a message in chat 1 and then a
more recent one in chat 0, and finally renames chat 1. -/
def renameDemoDB : DB :=
  let d1 := (createGroupChat DB.empty 10 (some [11, 12]) "g1").1
  let d2 := (createGroupChat d1 10 (some [11, 12]) "g2").1
  let d3 := (sendMessage d2 10 "hi" (some 1)).1
  let d4 := (sendMessage d3 10 "yo" (some 0)).1
  (renameGroup d4 1 "g2renamed").1

/-- Run: user 10 creates a 3-member group chat (users 11, 12 and the creator)
and then removes all three members one by one. -/
def drainedGroupDB : DB :=
  let d1 := (createGroupChat DB.empty 10 (some [11, 12]) "mates").1
  let d2 := (removeFromGroup d1 0 11).1
  let d3 := (removeFromGroup d2 0 12).1
  (removeFromGroup d3 0 10).1

/-- Run: user 10 opens a direct chat with user 11 on an empty database. -/
def directDemoDB : DB := (accessChat DB.empty 10 (some 11)).1

/-!
Helper lemmas.
-/

theorem findChat_after_mapUpdate (chats : List Chat) (cid : ChatId) (g : Chat → Chat)
    (hg : ∀ x, (g x).id = x.id) (c : Chat)
    (h : chats.find? (fun x => x.id == cid) = some c) :
    (chats.map (fun x => if x.id == cid then g x else x)).find? (fun x => x.id == cid)
      = some (g c) := by
  induction chats with
  | nil => simp at h
  | cons a as ih =>
      by_cases ha : a.id = cid
      · rw [List.find?_cons_of_pos _ (by simpa using ha)] at h
        have hc : a = c := by injection h
        subst hc
        simp only [List.map_cons]
        rw [if_pos (by simpa using ha)]
        exact List.find?_cons_of_pos _ (by simp [hg a, ha])
      · rw [List.find?_cons_of_neg _ (by simpa using ha)] at h
        simp only [List.map_cons]
        rw [if_neg (by simpa using ha)]
        rw [List.find?_cons_of_neg _ (by simpa using ha)]
        exact ih h

theorem findChatByIdAndUpdate_found (db : DB) (cid : ChatId) (f : Chat → Chat)
    (hf : ∀ x, (f x).id = x.id) (c : Chat) (h : db.findChat? cid = some c) :
    (db.findChatByIdAndUpdate cid f).1.findChat? cid
      = some { f c with updatedAt := db.now }
    ∧ (db.findChatByIdAndUpdate cid f).1.messages = db.messages := by
  have hmain := findChat_after_mapUpdate db.chats cid
      (fun x => { f x with updatedAt := db.now }) (fun x => hf x) c h
  unfold DB.findChatByIdAndUpdate
  rw [h]
  exact ⟨hmain, rfl⟩

instance : IsTotal Chat moreRecentlyUpdated :=
  ⟨fun a b => Nat.le_total b.updatedAt a.updatedAt⟩

instance : IsTrans Chat moreRecentlyUpdated :=
  ⟨fun _ _ _ hab hbc => Nat.le_trans hbc hab⟩

/-!
The claims.
-/

/-- C1: accessChat is an idempotent find-or-create: calling it twice for the
same pair of users returns the same chat the second time as the first (in
particular the same chat id), whether the first call found an existing direct
chat or created a new one. -/
theorem accessChat_idempotent (db : DB) (me uid : UserId) :
    ∃ c : Chat,
      (accessChat db me (some uid)).2 = .chatBody 200 c
      ∧ (accessChat (accessChat db me (some uid)).1 me (some uid)).2 = .chatBody 200 c
      ∧ (accessChat (accessChat db me (some uid)).1 me (some uid)).2.chatId?
          = (accessChat db me (some uid)).2.chatId? := by
  cases hfind : db.chats.find? (directChatQuery me uid) with
  | some c =>
      refine ⟨c, ?_, ?_, ?_⟩ <;> simp [accessChat, hfind]
  | none =>
      refine ⟨{ id := db.nextChatId, chatName := "sender", isGroupChat := false,
                users := [me, uid], groupAdmin := none, latestMessage := none,
                updatedAt := db.now }, ?_, ?_, ?_⟩ <;>
        simp [accessChat, hfind, List.find?_append, directChatQuery]

/-- C4 counterexample: in a state reached by creating two group chats for user
10, sending the most recent message in chat 0, and then renaming chat 1,
fetchChats lists chat 1 before chat 0 even though chat 0's latest message
(creation time 3) is more recent than chat 1's (creation time 2): the code
sorts by the chats' `updatedAt`, which the rename bumped. -/
theorem fetchChats_not_sorted_by_latest_message :
    responseChatIds (fetchChats renameDemoDB 10) = [1, 0]
    ∧ latestMessageTime renameDemoDB 0 = some 3
    ∧ latestMessageTime renameDemoDB 1 = some 2
    ∧ chatUsersAt renameDemoDB 0 = [11, 12, 10]
    ∧ chatUsersAt renameDemoDB 1 = [11, 12, 10] := by decide

/-- C4 (amended): fetchChats returns exactly the chats whose participant list
contains the requesting user, sorted by the chats' `updatedAt` timestamp,
most recently updated first.  Since `updatedAt` is also bumped by rename and
membership updates, this order agrees with latest-message recency only when a
message send was each chat's last modification. -/
theorem fetchChats_membership_and_updatedAt_order (db : DB) (me : UserId) :
    ∃ cs : List Chat,
      fetchChats db me = .chatListBody 200 cs
      ∧ cs.Perm (db.chats.filter (fun c => c.users.contains me))
      ∧ cs.Sorted moreRecentlyUpdated :=
  ⟨_, rfl, List.perm_insertionSort _ _, List.sorted_insertionSort _ _⟩

/-- C8: requests missing a required field are rejected with status 400, a
human-readable message, and no database write: accessChat without a userId
(`res.sendStatus(400)`, whose body is the status text "Bad Request"), and
sendMessage with empty/missing content or missing chatId. -/
theorem missing_field_validation (db : DB) (me : UserId) (content : String)
    (chatId? : Option ChatId) :
    accessChat db me none = (db, .errorBody 400 "Bad Request")
    ∧ sendMessage db me "" chatId? = (db, .errorBody 400 "Content and chatId are required.")
    ∧ sendMessage db me content none
        = (db, .errorBody 400 "Content and chatId are required.") := by
  refine ⟨rfl, ?_, ?_⟩ <;> simp [sendMessage]


/-- The message document `Message.create` builds inside sendMessage. -/
def newMessageDoc (db : DB) (me : UserId) (content : String) (chatId : ChatId) : Message :=
  { id := db.nextMessageId, sender := me, content := content, chat := chatId,
    createdAt := db.now }

/-- The database state right after `Message.create` inside sendMessage. -/
def dbAfterCreateMessage (db : DB) (me : UserId) (content : String) (chatId : ChatId) : DB :=
  { db with
      messages := db.messages ++ [newMessageDoc db me content chatId],
      nextMessageId := db.nextMessageId + 1 }

theorem sendMessage_eq (db : DB) (me : UserId) (content : String) (chatId : ChatId)
    (hc : content ≠ "") :
    sendMessage db me content (some chatId)
      = (((dbAfterCreateMessage db me content chatId).findChatByIdAndUpdate chatId
            (fun x => { x with latestMessage := some db.nextMessageId })).1,
          .messageBody 201 (newMessageDoc db me content chatId)) := by
  unfold sendMessage
  rw [if_neg (by simp [hc] : ¬ (content = "" ∨ ((some chatId : Option ChatId).isNone = true)))]
  rfl

/-- C3: for non-empty content and an existing chat, sendMessage creates a new
message with the caller as sender, stores it, points the chat's latestMessage
at it, and returns the created message with status 201. -/
theorem sendMessage_updates_latestMessage (db : DB) (me : UserId) (content : String)
    (chatId : ChatId) (hc : content ≠ "") (c : Chat) (hex : db.findChat? chatId = some c) :
    ∃ m : Message,
      (sendMessage db me content (some chatId)).2 = .messageBody 201 m
      ∧ m.sender = me ∧ m.content = content ∧ m.chat = chatId
      ∧ m ∈ (sendMessage db me content (some chatId)).1.messages
      ∧ ((sendMessage db me content (some chatId)).1.findChat? chatId).map Chat.latestMessage
          = some (some m.id) := by
  have hex1 : (dbAfterCreateMessage db me content chatId).findChat? chatId = some c := hex
  have hupd := findChatByIdAndUpdate_found (dbAfterCreateMessage db me content chatId)
      chatId (fun x => { x with latestMessage := some db.nextMessageId }) (fun _ => rfl)
      c hex1
  refine ⟨newMessageDoc db me content chatId, ?_, rfl, rfl, rfl, ?_, ?_⟩
  · rw [sendMessage_eq db me content chatId hc]
  · rw [sendMessage_eq db me content chatId hc, hupd.2]
    exact List.mem_append_right _ (List.mem_singleton.mpr rfl)
  · rw [sendMessage_eq db me content chatId hc, hupd.1]
    rfl

/-- The group chat document created on the success path of createGroupChat
(the parsed users with the requester pushed at the end, requester as admin). -/
def newGroupChatDoc (db : DB) (me : UserId) (users : List UserId) (name : String) : Chat :=
  { id := db.nextChatId, chatName := name, isGroupChat := true, users := users ++ [me],
    groupAdmin := some me, latestMessage := none, updatedAt := db.now }

theorem createGroupChat_eq_success (db : DB) (me : UserId) (users : List UserId)
    (name : String) (hname : name ≠ "") (hlen : ¬ users.length < 2) :
    createGroupChat db me (some users) name
      = ({ db with
            chats := db.chats ++ [newGroupChatDoc db me users name],
            nextChatId := db.nextChatId + 1, now := db.now + 1 },
          .chatBody 200 (newGroupChatDoc db me users name)) := by
  unfold createGroupChat
  rw [if_neg (by simp [hname] :
    ¬ (((some users : Option (List UserId)).isNone = true) ∨ name = ""))]
  simp only [Option.getD_some]
  rw [if_neg hlen]
  rfl

/-- C5: createGroupChat rejects a request whose parsed users array has fewer
than 2 entries with a 400 error and no database change; every successful
response carries a group chat with at least 2 participants and a non-empty
name. -/
theorem createGroupChat_validation (db : DB) (me : UserId) (users : List UserId)
    (name : String) :
    (users.length < 2 →
        (createGroupChat db me (some users) name).1 = db
        ∧ (createGroupChat db me (some users) name).2.status = 400)
    ∧ (∀ c : Chat, (createGroupChat db me (some users) name).2 = .chatBody 200 c →
        2 ≤ c.users.length ∧ c.chatName ≠ "") := by
  by_cases hname : name = ""
  · refine ⟨fun _ => ?_, fun c hc => ?_⟩
    · simp [createGroupChat, hname, ApiResult.status]
    · simp [createGroupChat, hname] at hc
  · by_cases hlen : users.length < 2
    · refine ⟨fun _ => ?_, fun c hc => ?_⟩
      · simp [createGroupChat, hname, hlen, ApiResult.status]
      · simp [createGroupChat, hname, hlen] at hc
    · refine ⟨fun h => absurd h hlen, fun c hc => ?_⟩
      rw [createGroupChat_eq_success db me users name hname hlen] at hc
      have hc1 : ApiResult.chatBody 200 (newGroupChatDoc db me users name)
          = ApiResult.chatBody 200 c := hc
      injection hc1 with _ hc2
      subst hc2
      constructor
      · show 2 ≤ (users ++ [me]).length
        simp only [List.length_append, List.length_cons, List.length_nil]
        omega
      · exact hname

/-- C6 counterexample: the data-model invariants are not preserved by the chat
operations.  Starting from an empty database, createGroupChat gives chat 0 the
users [11, 12, 10] with admin 10; three removeFromGroup calls (the reachable
state `drainedGroupDB`) leave a group chat with an empty participant list —
fewer than 2 participants, creator gone, and an admin who is not among the
participants.  Moreover a freshly created direct chat carries the name
"sender" rather than no name. -/
theorem chat_invariants_violated :
    chatUsersAt drainedGroupDB 0 = []
    ∧ (drainedGroupDB.findChat? 0).map Chat.isGroupChat = some true
    ∧ (drainedGroupDB.findChat? 0).map Chat.groupAdmin = some (some 10)
    ∧ (directDemoDB.findChat? 0).map Chat.isGroupChat = some false
    ∧ (directDemoDB.findChat? 0).map Chat.chatName = some "sender" := by decide

/-- C6 (amended): the invariants hold at creation time but are not preserved
by the membership operations: accessChat creates direct chats with exactly 2
participants, no admin, and the placeholder name "sender"; createGroupChat
creates group chats consisting of the parsed users plus the creator, with a
non-empty name and the creator as admin among the participants.
removeFromGroup can subsequently drop a group below 2 participants or remove
the admin from the participant list (see the counterexample). -/
theorem chat_creation_invariants (db : DB) (me uid : UserId) (users : List UserId)
    (name : String) :
    (db.chats.find? (directChatQuery me uid) = none →
      ∃ c : Chat, (accessChat db me (some uid)).2 = .chatBody 200 c
        ∧ c.isGroupChat = false ∧ c.users = [me, uid] ∧ c.users.length = 2
        ∧ c.groupAdmin = none ∧ c.chatName = "sender")
    ∧ (2 ≤ users.length → name ≠ "" →
      ∃ c : Chat, (createGroupChat db me (some users) name).2 = .chatBody 200 c
        ∧ c.isGroupChat = true ∧ c.users = users ++ [me] ∧ 2 ≤ c.users.length
        ∧ me ∈ c.users ∧ c.groupAdmin = some me ∧ c.chatName = name
        ∧ c.chatName ≠ "") := by
  constructor
  · intro hfind
    refine ⟨{ id := db.nextChatId, chatName := "sender", isGroupChat := false,
              users := [me, uid], groupAdmin := none, latestMessage := none,
              updatedAt := db.now }, ?_, rfl, rfl, rfl, rfl, rfl⟩
    simp [accessChat, hfind]
  · intro hlen hname
    have hlt : ¬ users.length < 2 := by omega
    refine ⟨newGroupChatDoc db me users name, ?_, rfl, rfl, ?_, ?_, rfl, rfl, hname⟩
    · rw [createGroupChat_eq_success db me users name hname hlt]
    · show 2 ≤ (users ++ [me]).length
      simp only [List.length_append, List.length_cons, List.length_nil]
      omega
    · exact List.mem_append_right _ (List.mem_singleton.mpr rfl)

theorem findChatByIdAndUpdate_eq (db : DB) (cid : ChatId) (f : Chat → Chat) (c : Chat)
    (h : db.findChat? cid = some c) :
    db.findChatByIdAndUpdate cid f
      = ({ db with
            chats := db.chats.map
              (fun x => if x.id == cid then { f x with updatedAt := db.now } else x),
            now := db.now + 1 },
          some { f c with updatedAt := db.now }) := by
  unfold DB.findChatByIdAndUpdate
  rw [h]

theorem addToGroup_eq (db : DB) (cid : ChatId) (uid : UserId) (c : Chat)
    (h : db.findChat? cid = some c) :
    addToGroup db cid uid
      = ({ db with
            chats := db.chats.map (fun x => if x.id == cid then
              { x with users := x.users ++ [uid], updatedAt := db.now } else x),
            now := db.now + 1 },
          .chatBody 200 { c with users := c.users ++ [uid], updatedAt := db.now }) := by
  unfold addToGroup
  rw [findChatByIdAndUpdate_eq db cid _ c h]

/-- C9: addToGroup is an unconditional `$push`: adding `uid` to an existing
chat appends it to the participant list even when already present, and doing
it twice leaves `uid` listed twice (its occurrence count grows to at least
2). -/
theorem addToGroup_unconditional_push (db : DB) (cid : ChatId) (uid : UserId) (c : Chat)
    (h : db.findChat? cid = some c) :
    ((addToGroup db cid uid).1.findChat? cid).map Chat.users = some (c.users ++ [uid])
    ∧ ((addToGroup (addToGroup db cid uid).1 cid uid).1.findChat? cid).map Chat.users
        = some ((c.users ++ [uid]) ++ [uid])
    ∧ 2 ≤ ((c.users ++ [uid]) ++ [uid]).count uid := by
  have h1 : (addToGroup db cid uid).1.findChat? cid
      = some { c with users := c.users ++ [uid], updatedAt := db.now } := by
    rw [addToGroup_eq db cid uid c h]
    exact findChat_after_mapUpdate db.chats cid
      (fun x => { x with users := x.users ++ [uid], updatedAt := db.now }) (fun _ => rfl) c h
  have h2 : (addToGroup (addToGroup db cid uid).1 cid uid).1.findChat? cid
      = some { c with
                users := (c.users ++ [uid]) ++ [uid],
                updatedAt := (addToGroup db cid uid).1.now } := by
    rw [addToGroup_eq (addToGroup db cid uid).1 cid uid _ h1]
    exact findChat_after_mapUpdate (addToGroup db cid uid).1.chats cid
      (fun x => { x with users := x.users ++ [uid], updatedAt := (addToGroup db cid uid).1.now })
      (fun _ => rfl) _ h1
  refine ⟨?_, ?_, ?_⟩
  · rw [h1]
    rfl
  · rw [h2]
    rfl
  · simp [List.count_append]

/-- A populated message for chat 5, used in concrete client scenarios. -/
def noteMsgA : Message :=
  { id := 0, sender := 1, content := "a", chat := 5, createdAt := 0 }

/-- A second, distinct populated message for chat 5. -/
def noteMsgB : Message :=
  { id := 1, sender := 2, content := "b", chat := 5, createdAt := 1 }

/-- C7 counterexample: the consumer does not append to the notification list.
With no chat open and notification list [noteMsgA], receiving noteMsgB yields
[noteMsgB, noteMsgA] — the new message is prepended, not appended. -/
theorem messageHandler_prepends :
    (messageHandler none
        { messages := [], notification := [noteMsgA], fetchAgain := false }
        noteMsgB).notification = [noteMsgB, noteMsgA]
    ∧ (messageHandler none
        { messages := [], notification := [noteMsgA], fetchAgain := false }
        noteMsgB).notification ≠ [noteMsgA, noteMsgB] := by decide

/-- C7 (amended): on receiving a message, if a chat is open and the message's
chat id equals the open chat's id, the message is appended to the end of the
visible message list; otherwise, if the message is not already in the
notification list it is prepended to the front of the notification list
(newest first) and the re-fetch flag is toggled, and if it is already present
the state is unchanged. -/
theorem messageHandler_cases (sc : Option Chat) (s : ClientState) (m : Message) :
    (∀ c : Chat, sc = some c → c.id = m.chat →
        messageHandler sc s m = { s with messages := s.messages ++ [m] })
    ∧ ((∀ c : Chat, sc = some c → c.id ≠ m.chat) → m ∉ s.notification →
        messageHandler sc s m
          = { s with notification := m :: s.notification, fetchAgain := !s.fetchAgain })
    ∧ ((∀ c : Chat, sc = some c → c.id ≠ m.chat) → m ∈ s.notification →
        messageHandler sc s m = s) := by
  refine ⟨?_, ?_, ?_⟩
  · rintro c rfl hid
    simp [messageHandler, chatMismatch, hid]
  · intro hmis hnotin
    cases sc with
    | none => simp [messageHandler, chatMismatch, hnotin]
    | some c => simp [messageHandler, chatMismatch, hmis c rfl, hnotin]
  · intro hmis hin
    cases sc with
    | none => simp [messageHandler, chatMismatch, hin]
    | some c => simp [messageHandler, chatMismatch, hmis c rfl, hin]

/-- C10: the client send handler issues the POST exactly when the pressed key
is Enter and the input is non-empty after trimming; the posted content is the
(untrimmed) input, which is then never whitespace-only; on any other event the
handler leaves the message list and the input unchanged and posts nothing. -/
theorem clientSendMessage_guard (eventKey newMessage : String) (cid : ChatId)
    (messages : List Message) (data : Message) :
    ((clientSendMessage eventKey newMessage cid messages data).1.isSome
        ↔ (eventKey = "Enter" ∧ jsTrim newMessage ≠ ""))
    ∧ (∀ p : PostPayload,
        (clientSendMessage eventKey newMessage cid messages data).1 = some p →
        p.content = newMessage ∧ p.chatId = cid ∧ jsTrim p.content ≠ "")
    ∧ (¬ (eventKey = "Enter" ∧ jsTrim newMessage ≠ "") →
        clientSendMessage eventKey newMessage cid messages data
          = (none, messages, newMessage)) := by
  by_cases h : eventKey = "Enter" ∧ jsTrim newMessage ≠ ""
  · refine ⟨?_, ?_, fun hn => absurd h hn⟩
    · rw [clientSendMessage, if_pos h]
      simpa using h
    · intro p hp
      rw [clientSendMessage, if_pos h] at hp
      have hp1 : ({ content := newMessage, chatId := cid } : PostPayload) = p :=
        Option.some.inj hp
      subst hp1
      exact ⟨rfl, rfl, h.2⟩
  · refine ⟨?_, ?_, fun _ => ?_⟩
    · rw [clientSendMessage, if_neg h]
      simpa using h
    · intro p hp
      rw [clientSendMessage, if_neg h] at hp
      exact absurd hp (by simp)
    · rw [clientSendMessage, if_neg h]

/-- The relative deadline chain of a burst: each keystroke arrives strictly
before the deadline set by its predecessor. -/
def chainBelow (d : Nat) : List Nat → Bool
  | [] => true
  | t :: ts => decide (t < d) && chainBelow (t + 3000) ts

/-- The deadline pending after processing `ts` starting with deadline `d`. -/
def lastDeadline (d : Nat) : List Nat → Nat
  | [] => d
  | t :: ts => lastDeadline (t + 3000) ts

theorem lastDeadline_eq (ts : List Nat) : ∀ t : Nat,
    lastDeadline (t + 3000) ts = lastTime t ts + 3000 := by
  induction ts with
  | nil => intro t; rfl
  | cons u us ih => intro t; exact ih u

theorem isBurst_chainBelow : ∀ (a : Nat) (ts : List Nat),
    isBurst (a :: ts) = true → chainBelow (a + 3000) ts = true := by
  intro a ts
  induction ts generalizing a with
  | nil => intro _; rfl
  | cons b ts ih =>
      intro h
      have h1 : ((a ≤ b ∧ b < a + 3000) ∧ isBurst (b :: ts) = true) := by
        simpa [isBurst] using h
      simp only [chainBelow, Bool.and_eq_true, decide_eq_true_eq]
      exact ⟨h1.1.2, ih b h1.2⟩

theorem runKeystrokes_chain : ∀ (ts : List Nat) (d : Nat), chainBelow d ts = true →
    runKeystrokes true { typing := true, timer := some d } ts
      = ({ typing := true, timer := some (lastDeadline d ts) }, []) := by
  intro ts
  induction ts with
  | nil => intro d _; rfl
  | cons t ts ih =>
      intro d h
      have h1 : t < d ∧ chainBelow (t + 3000) ts = true := by
        simpa [chainBelow] using h
      have ht : timerFire { typing := true, timer := some d } t
          = ({ typing := true, timer := some d }, []) := by
        simp [timerFire, Nat.not_le.mpr h1.1]
      have hh : typingHandler true { typing := true, timer := some d } t
          = ({ typing := true, timer := some (t + 3000) }, []) := rfl
      simp only [runKeystrokes, ht, hh, ih (t + 3000) h1.2]
      rfl

/-- C2: starting from a freshly mounted component with a connected socket, a
burst of keystrokes (nondecreasing times, each within 3000ms of the previous)
followed by idleness up to any time at least 3000ms past the last keystroke
emits exactly one "typing" signal, at the first keystroke, and exactly one
"stop typing" signal, at the last keystroke time plus 3000ms.  Moreover every
keystroke handled while connected leaves the (re)started timer pending at its
own time plus 3000ms, and after the unmount cleanup no pending timer remains,
so the stop-typing timeout can never fire. -/
theorem typing_debounce (t0 : Nat) (rest : List Nat) (observeAt : Nat)
    (hburst : isBurst (t0 :: rest) = true)
    (hidle : lastTime t0 rest + 3000 ≤ observeAt) :
    runBurstThenIdle true (t0 :: rest) observeAt
      = [TypingEvent.typingSignal t0,
         TypingEvent.stopTypingSignal (lastTime t0 rest + 3000)]
    ∧ (∀ s : TypingState, ∀ t : Nat, (typingHandler true s t).1.timer = some (t + 3000))
    ∧ (∀ s : TypingState, ∀ t : Nat,
        timerFire (unmountCleanup s) t = (unmountCleanup s, [])) := by
  refine ⟨?_, fun s t => rfl, fun s t => rfl⟩
  have hc : chainBelow (t0 + 3000) rest = true := isBurst_chainBelow t0 rest hburst
  have ht : timerFire TypingState.initial t0 = (TypingState.initial, []) := rfl
  have hh : typingHandler true TypingState.initial t0
      = ({ typing := true, timer := some (t0 + 3000) },
         [TypingEvent.typingSignal t0]) := rfl
  have hstart : runKeystrokes true TypingState.initial (t0 :: rest)
      = ({ typing := true, timer := some (lastDeadline (t0 + 3000) rest) },
         [TypingEvent.typingSignal t0]) := by
    simp only [runKeystrokes, ht, hh, runKeystrokes_chain rest (t0 + 3000) hc]
    rfl
  have hfire : timerFire
      { typing := true, timer := some (lastTime t0 rest + 3000) } observeAt
      = ({ typing := false, timer := none },
         [TypingEvent.stopTypingSignal (lastTime t0 rest + 3000)]) := by
    simp [timerFire, hidle]
  unfold runBurstThenIdle
  simp only [hstart, lastDeadline_eq rest t0, hfire]
  rfl

/-!
Concrete witnesses instantiating the conditional theorems above.
-/

/-- The direct chat created in `directDemoDB`. -/
def directChat0 : Chat :=
  { id := 0, chatName := "sender", isGroupChat := false, users := [10, 11],
    groupAdmin := none, latestMessage := none, updatedAt := 0 }

/-- A concrete open chat with id 5, matching noteMsgA/noteMsgB. -/
def chat5 : Chat :=
  { id := 5, chatName := "sender", isGroupChat := false, users := [1, 2],
    groupAdmin := none, latestMessage := none, updatedAt := 0 }

/-- Witness for typing_debounce: the burst [0, 100, 200] observed at 3300ms. -/
theorem typing_debounce_witness :
    isBurst [0, 100, 200] = true
    ∧ lastTime 0 [100, 200] + 3000 ≤ 3300
    ∧ runBurstThenIdle true [0, 100, 200] 3300
        = [TypingEvent.typingSignal 0,
           TypingEvent.stopTypingSignal (lastTime 0 [100, 200] + 3000)]
    ∧ (typingHandler true TypingState.initial 7).1.timer = some (7 + 3000)
    ∧ timerFire (unmountCleanup { typing := true, timer := some 42 }) 99999
        = (unmountCleanup { typing := true, timer := some 42 }, []) :=
  ⟨by decide, by decide,
   (typing_debounce 0 [100, 200] 3300 (by decide) (by decide)).1,
   (typing_debounce 0 [100, 200] 3300 (by decide) (by decide)).2.1 TypingState.initial 7,
   (typing_debounce 0 [100, 200] 3300 (by decide) (by decide)).2.2
     { typing := true, timer := some 42 } 99999⟩

/-- Witness for sendMessage_updates_latestMessage: user 10 sends "hi" in the
existing direct chat 0 of `directDemoDB`. -/
theorem sendMessage_updates_latestMessage_witness :
    ("hi" : String) ≠ ""
    ∧ directDemoDB.findChat? 0 = some directChat0
    ∧ (∃ m : Message,
        (sendMessage directDemoDB 10 "hi" (some 0)).2 = .messageBody 201 m
        ∧ m.sender = 10 ∧ m.content = "hi" ∧ m.chat = 0
        ∧ m ∈ (sendMessage directDemoDB 10 "hi" (some 0)).1.messages
        ∧ ((sendMessage directDemoDB 10 "hi" (some 0)).1.findChat? 0).map Chat.latestMessage
            = some (some m.id)) :=
  ⟨by decide, by decide,
   sendMessage_updates_latestMessage directDemoDB 10 "hi" 0 (by decide) directChat0 (by decide)⟩

/-- Witness for createGroupChat_validation: the 1-user request is rejected
without a write, and the successful 2-user request satisfies the invariant. -/
theorem createGroupChat_validation_witness :
    ([11] : List UserId).length < 2
    ∧ ((createGroupChat DB.empty 10 (some [11]) "g").1 = DB.empty
        ∧ (createGroupChat DB.empty 10 (some [11]) "g").2.status = 400)
    ∧ (2 ≤ (newGroupChatDoc DB.empty 10 [11, 12] "g").users.length
        ∧ (newGroupChatDoc DB.empty 10 [11, 12] "g").chatName ≠ "") :=
  ⟨by decide,
   (createGroupChat_validation DB.empty 10 [11] "g").1 (by decide),
   (createGroupChat_validation DB.empty 10 [11, 12] "g").2
     (newGroupChatDoc DB.empty 10 [11, 12] "g") (by decide)⟩

/-- Witness for chat_creation_invariants: creating the direct chat 10-11 and
the group chat "mates" on the empty database. -/
theorem chat_creation_invariants_witness :
    DB.empty.chats.find? (directChatQuery 10 11) = none
    ∧ (∃ c : Chat, (accessChat DB.empty 10 (some 11)).2 = .chatBody 200 c
        ∧ c.isGroupChat = false ∧ c.users = [10, 11] ∧ c.users.length = 2
        ∧ c.groupAdmin = none ∧ c.chatName = "sender")
    ∧ (∃ c : Chat, (createGroupChat DB.empty 10 (some [11, 12]) "mates").2 = .chatBody 200 c
        ∧ c.isGroupChat = true ∧ c.users = [11, 12] ++ [10] ∧ 2 ≤ c.users.length
        ∧ 10 ∈ c.users ∧ c.groupAdmin = some 10 ∧ c.chatName = "mates"
        ∧ c.chatName ≠ "") :=
  ⟨by decide,
   (chat_creation_invariants DB.empty 10 11 [11, 12] "mates").1 (by decide),
   (chat_creation_invariants DB.empty 10 11 [11, 12] "mates").2 (by decide) (by decide)⟩

/-- Witness for messageHandler_cases: append to the open chat 5, prepend to
the notification list when no chat is open, drop an already-notified
message. -/
theorem messageHandler_cases_witness :
    messageHandler (some chat5)
        { messages := [], notification := [], fetchAgain := false } noteMsgB
      = { messages := [noteMsgB], notification := [], fetchAgain := false }
    ∧ messageHandler none
        { messages := [], notification := [noteMsgA], fetchAgain := false } noteMsgB
      = { messages := [], notification := [noteMsgB, noteMsgA], fetchAgain := true }
    ∧ messageHandler none
        { messages := [], notification := [noteMsgB], fetchAgain := false } noteMsgB
      = { messages := [], notification := [noteMsgB], fetchAgain := false } :=
  ⟨(messageHandler_cases (some chat5)
      { messages := [], notification := [], fetchAgain := false } noteMsgB).1
      chat5 rfl (by decide),
   (messageHandler_cases none
      { messages := [], notification := [noteMsgA], fetchAgain := false } noteMsgB).2.1
      (fun c h => nomatch h) (by decide),
   (messageHandler_cases none
      { messages := [], notification := [noteMsgB], fetchAgain := false } noteMsgB).2.2
      (fun c h => nomatch h) (by decide)⟩

/-- Witness for addToGroup_unconditional_push: pushing user 11 twice onto the
direct chat 0 of `directDemoDB`, which already lists 11. -/
theorem addToGroup_unconditional_push_witness :
    directDemoDB.findChat? 0 = some directChat0
    ∧ (((addToGroup directDemoDB 0 11).1.findChat? 0).map Chat.users
          = some (directChat0.users ++ [11])
        ∧ ((addToGroup (addToGroup directDemoDB 0 11).1 0 11).1.findChat? 0).map Chat.users
          = some ((directChat0.users ++ [11]) ++ [11])
        ∧ 2 ≤ ((directChat0.users ++ [11]) ++ [11]).count 11) :=
  ⟨by decide, addToGroup_unconditional_push directDemoDB 0 11 directChat0 (by decide)⟩

/-- Witness for clientSendMessage_guard: a non-Enter keydown changes nothing,
and the payload posted for Enter on "hi" is non-empty. -/
theorem clientSendMessage_guard_witness :
    clientSendMessage "a" "hi" 5 [] noteMsgA = (none, [], "hi")
    ∧ (({ content := "hi", chatId := 5 } : PostPayload).content = "hi"
        ∧ ({ content := "hi", chatId := 5 } : PostPayload).chatId = 5
        ∧ jsTrim ({ content := "hi", chatId := 5 } : PostPayload).content ≠ "") :=
  ⟨(clientSendMessage_guard "a" "hi" 5 [] noteMsgA).2.2 (by decide),
   (clientSendMessage_guard "Enter" "hi" 5 [] noteMsgA).2.1
     { content := "hi", chatId := 5 } (by decide)⟩
